import Mathlib

/-!
Shallow embedding of the real-time coaching orchestrator of the
kingly-ai-overlay repository, together with proofs and refutations of the
frozen behavioural claims about it.  Every definition is translated from the
TypeScript source (useAudioCapture.ts, useScreenCapture, useAICoaching,
useVisualAnalysis, useSmartFeedback.ts, useSessionManager,
EnhancedOverlayWindow.tsx, ScreenAnalysisOverlay.tsx); timestamps and
durations are modelled as natural numbers of milliseconds, JS arrays as
lists, fallible or absent values as Option.
-/

namespace KinglyOverlay

/-! ## Transcript aggregation (useAudioCapture.ts, transcribeAudio) -/

/-- State update performed by transcribeAudio in useAudioCapture.ts when a
transcription result arrives: setTranscription appends a single space and the
returned text to the previous transcription string. -/
def appendTranscription (prev text : String) : String := prev ++ (" ") ++ text

/-- Transcript obtained by applying appendTranscription once per arriving
transcription result, in the order the results resolve.  resolutionOrder
lists zero-based indices into chunks in resolution order; the code has no
sequence numbers and no reorder buffer, it appends each result on arrival. -/
def assembleTranscript (chunks : List String) (resolutionOrder : List Nat) : String :=
  resolutionOrder.foldl (fun acc i => appendTranscription acc (chunks.getD i (""))) ("")

/-- Concatenation of the chunk texts in submission order, each preceded by the
separating space the code inserts.  This is what the transcript equals when
results resolve in exactly the order the chunks were submitted. -/
def submissionConcat (chunks : List String) : String :=
  chunks.foldl (fun acc t => appendTranscription acc t) ("")

/-! ## Word-count suggestion trigger (EnhancedOverlayWindow.tsx) -/

/-- Splitting of a character list at every single space character, the
behaviour of the JS split method with a one-space separator: consecutive
separators and a leading or trailing separator produce empty fragments. -/
def splitOnSpaceChars : List Char → List (List Char)
  | [] => [[]]
  | c :: cs =>
    match splitOnSpaceChars cs with
    | [] => [[]]
    | w :: ws => if c = ' ' then [] :: w :: ws else (c :: w) :: ws

/-- The list of fragments of transcript.split with a single space separator. -/
def splitWords (s : String) : List String :=
  (splitOnSpaceChars s.data).map (fun w => String.mk w)

/-- Condition of the auto-suggestion effect in EnhancedOverlayWindow.tsx: the
effect body runs generateSuggestion exactly when the transcript is a nonempty
string of more than 100 characters whose split on single spaces has length
divisible by 50. -/
def suggestionTrigger (t : String) : Bool :=
  t != ("") && t.length > 100 && (splitWords t).length % 50 == 0

/-- Successive transcription states seen by the effect: starting from the
current transcript t, each arriving chunk result produces one new state via
appendTranscription, and the effect re-runs on each state. -/
def transcriptStatesFrom (t : String) : List String → List String
  | [] => []
  | c :: cs =>
    appendTranscription t c :: transcriptStatesFrom (appendTranscription t c) cs

/-- Number of times the auto-suggestion effect fires generateSuggestion while
the transcript grows from empty by the given chunk results. -/
def countTriggers (chunks : List String) : Nat :=
  ((transcriptStatesFrom ("") chunks).filter suggestionTrigger).length

/-- A chunk of exactly ten words. -/
def tenWordChunk : String := "alpha beta gamma delta epsilon zeta eta theta iota kappa"

/-! ## Smart feedback engine (useSmartFeedback.ts) -/

/-- Priority levels of a feedback event, the string union low, medium, high,
urgent of the source. -/
inductive FeedbackPriority
  | low
  | medium
  | high
  | urgent
deriving DecidableEq, Repr

/-- Snapshot context stored on a feedback event. -/
structure FeedbackContext where
  sessionType : String
  duration : Nat
  activity : String
deriving DecidableEq, Repr

/-- A SmartFeedback record as in useSmartFeedback.ts.  The type field is the
string union coaching, warning, suggestion, insight, action. -/
structure SmartFeedback where
  id : String
  timestamp : Nat
  type : String
  priority : FeedbackPriority
  title : String
  message : String
  actionable : Bool
  context : FeedbackContext
  suggestions : List String
  dismissed : Bool
deriving DecidableEq, Repr

/-- Hook state of useSmartFeedback: the feedbacks list and the single active
feedback slot. -/
structure FeedbackState where
  feedbacks : List SmartFeedback
  activeFeedback : Option SmartFeedback
deriving DecidableEq, Repr

/-- Keep the last n elements of a list, the JS slice with argument -n used by
the bounded buffers. -/
def sliceLast (n : Nat) (l : List α) : List α := l.drop (l.length - n)

/-- State change of generateContextualFeedback on a successfully parsed
result: setFeedbacks keeps the last 50 previous events and appends the new
one, and setActiveFeedback installs the new event exactly when its priority
is high or urgent. -/
def pushFeedback (s : FeedbackState) (f : SmartFeedback) : FeedbackState :=
  { feedbacks := sliceLast 50 s.feedbacks ++ [f]
    activeFeedback :=
      if f.priority = .high ∨ f.priority = .urgent then some f else s.activeFeedback }

/-- dismissFeedback in useSmartFeedback.ts: the event with the given id gets
dismissed set to true in the list, and the active slot is cleared exactly
when it holds the event with that id. -/
def dismissFeedback (s : FeedbackState) (fid : String) : FeedbackState :=
  { feedbacks :=
      s.feedbacks.map (fun f => if f.id = fid then { f with dismissed := true } else f)
    activeFeedback :=
      match s.activeFeedback with
      | some a => if a.id = fid then none else some a
      | none => none }

/-- Per-event action of the 5-second auto-dismiss sweep in useSmartFeedback:
a low-priority event strictly older than 30000 ms is marked dismissed, any
other event is returned unchanged. -/
def sweepOne (now : Nat) (f : SmartFeedback) : SmartFeedback :=
  if f.priority = .low ∧ now - f.timestamp > 30000 then { f with dismissed := true } else f

/-- One tick of the auto-dismiss interval: the sweep maps sweepOne over the
feedbacks list; the active slot is not touched. -/
def sweepTick (s : FeedbackState) (now : Nat) : FeedbackState :=
  { s with feedbacks := s.feedbacks.map (sweepOne now) }

/-- Sample feedback event used to instantiate the feedback theorems. -/
def sampleContext : FeedbackContext :=
  { sessionType := "meeting", duration := 60000, activity := "discussion" }

/-- Concrete high-priority feedback event. -/
def fHigh : SmartFeedback :=
  { id := "fb_high", timestamp := 1000, type := "warning", priority := .high
    title := "t", message := "m", actionable := true, context := sampleContext
    suggestions := [], dismissed := false }

/-- Concrete low-priority feedback event created at time 0. -/
def fLow : SmartFeedback :=
  { id := "fb_low", timestamp := 0, type := "insight", priority := .low
    title := "t", message := "m", actionable := false, context := sampleContext
    suggestions := [], dismissed := false }

/-! ## AI coaching suggestions (useAICoaching) -/

/-- An AISuggestion record as in the session types: category string, content,
originating context, timestamp, priority string and used flag. -/
structure AISuggestion where
  id : String
  type : String
  content : String
  context : String
  timestamp : Nat
  priority : String
  isUsed : Bool
deriving DecidableEq, Repr

/-- Hook state of useAICoaching, extended with pendingRequests, the number of
generateText calls issued and not yet completed.  The counter is a direct
reading of the control flow: every run of generateSuggestion that passes the
context guard reaches the await of generateText. -/
structure CoachingState where
  suggestions : List AISuggestion
  isGenerating : Bool
  pendingRequests : Nat
deriving DecidableEq, Repr

/-- Removal of leading and trailing whitespace from a string, the JS trim
used as the emptiness guard of generateSuggestion, written structurally over
the character list. -/
def jsTrim (s : String) : String :=
  String.mk (((s.data.dropWhile Char.isWhitespace).reverse.dropWhile
    Char.isWhitespace).reverse)

/-- Entry of generateSuggestion in useAICoaching: the only early return is an
empty trimmed context.  Otherwise the call sets isGenerating and issues a
generateText request; nothing tests isGenerating first, so a request is
issued even while another one is pending. -/
def generateSuggestionStart (s : CoachingState) (context : String) : CoachingState :=
  if jsTrim context = ("") then s
  else { s with isGenerating := true, pendingRequests := s.pendingRequests + 1 }

/-- Scheduler state of the 10-second screen analysis interval in
ScreenAnalysisOverlay.tsx, extended with pendingRequests, the number of
analyzeScreen calls issued and not yet completed. -/
structure AnalysisSchedState where
  lastAnalysisTime : Nat
  pendingRequests : Nat
deriving DecidableEq, Repr

/-- Body of the 10-second interval in ScreenAnalysisOverlay.tsx: if a capture
exists and more than 8000 ms have passed since lastAnalysisTime, analyzeScreen
is called.  lastAnalysisTime is updated only after the awaited call returns,
so it is unchanged while a request is in flight, and nothing tests
isAnalyzing, so a tick during a pending request issues another request. -/
def analysisTickStart (s : AnalysisSchedState) (now : Nat) (hasCapture : Bool) :
    AnalysisSchedState :=
  if hasCapture ∧ 8000 < now - s.lastAnalysisTime then
    { s with pendingRequests := s.pendingRequests + 1 }
  else s

/-! ## Session lifecycle and debounced persistence
(useSessionManager, EnhancedOverlayWindow.tsx) -/

/-- Status of a session record. -/
inductive SessionStatus
  | active
  | paused
  | completed
deriving DecidableEq, Repr

/-- The part of the session record that endSession touches. -/
structure SessionRec where
  startTime : Nat
  endTime : Option Nat
  duration : Option Nat
  status : SessionStatus
deriving DecidableEq, Repr

/-- endSession in useSessionManager: the record receives endTime now,
duration now minus startTime, and status completed. -/
def endSession (sess : SessionRec) (now : Nat) : SessionRec :=
  { sess with
    endTime := some now
    duration := some (now - sess.startTime)
    status := .completed }

/-- State of the trailing-edge transcript debounce of EnhancedOverlayWindow:
an optional pending write (due time and the transcript to persist) and the
list of transcript snapshots persisted so far via saveTranscriptionSegment. -/
structure DebounceState where
  pending : Option (Nat × String)
  persisted : List String
deriving DecidableEq, Repr

/-- Transcript-change effect of EnhancedOverlayWindow: the effect cleanup
clears any previously scheduled timer and the body schedules a write of the
full current transcript 2000 ms after the change. -/
def onTranscriptChange (s : DebounceState) (t : Nat) (transcript : String) :
    DebounceState :=
  { s with pending := some (t + 2000, transcript) }

/-- Firing of the scheduled debounce timer at its due time: the scheduled
transcript snapshot is persisted and the timer slot empties. -/
def onTimerFire (s : DebounceState) : DebounceState :=
  match s.pending with
  | some (_, txt) => { pending := none, persisted := s.persisted ++ [txt] }
  | none => s

/-- stopSession in EnhancedOverlayWindow: endSession marks the record
completed with duration now minus startTime; resetting sessionStartTime then
makes the transcript effect cleanup run clearTimeout, which cancels any
pending debounced write without executing it.  No flush exists on the stop
path. -/
def stopSession (sess : SessionRec) (s : DebounceState) (now : Nat) :
    SessionRec × DebounceState :=
  (endSession sess now, { s with pending := none })

/-- Concrete run for C3: session starts at 0; the transcript changes at 1000
and that write fires at 3000; the transcript changes again at 124000, leaving
a write due at 126000; stop arrives at 125000 while that write is pending. -/
def c3Run : SessionRec × DebounceState :=
  stopSession
    { startTime := 0, endTime := none, duration := none, status := .active }
    (onTranscriptChange
      (onTimerFire (onTranscriptChange ⟨none, []⟩ 1000 ("hello")))
      124000 ("hello world"))
    125000

/-! ## Screen capture buffer and visual analysis history
(useScreenCapture, useVisualAnalysis) -/

/-- A ScreenCaptureData record as in useScreenCapture. -/
structure ScreenCaptureData where
  screenshot : String
  timestamp : Nat
  windowTitle : Option String
  activeApplication : Option String
deriving DecidableEq, Repr

/-- One feedback entry of a visual analysis. -/
structure FeedbackItem where
  type : String
  message : String
  actionable : Bool
deriving DecidableEq, Repr

/-- The analysis payload of a VisualAnalysis record. -/
structure AnalysisBody where
  content : String
  elements : List String
  context : String
  suggestions : List String
  urgency : String
deriving DecidableEq, Repr

/-- A VisualAnalysis record as in useVisualAnalysis. -/
structure VisualAnalysis where
  id : String
  timestamp : Nat
  screenshot : String
  analysis : AnalysisBody
  feedback : List FeedbackItem
deriving DecidableEq, Repr

/-- Capture-buffer update of the 3-second interval in useScreenCapture:
setCaptureData keeps the last 10 previous captures and appends the new one. -/
def pushCapture (prev : List ScreenCaptureData) (item : ScreenCaptureData) :
    List ScreenCaptureData :=
  sliceLast 10 prev ++ [item]

/-- History update of analyzeScreen in useVisualAnalysis: setAnalyses keeps
the last 20 previous analyses and appends the new one. -/
def pushAnalysis (prev : List VisualAnalysis) (a : VisualAnalysis) :
    List VisualAnalysis :=
  sliceLast 20 prev ++ [a]

/-- Fields of the JSON object the vision prompt asks for, each optional
because the dynamically parsed response may omit any of them. -/
structure ParsedAnalysis where
  content : Option String
  elements : Option (List String)
  context : Option String
  suggestions : Option (List String)
  urgency : Option String
  feedback : Option (List FeedbackItem)
deriving DecidableEq, Repr

/-- Outcome of one fallible AI call: the request fails, or it returns text
that the JSON parse step turns into a payload or fails to parse. -/
inductive AICallOutcome (α : Type)
  | failed
  | returned (parsed : Option α)

/-- Default-or-value on an optional string, the JS logical-or applied to a
possibly absent and possibly empty string field (empty strings are falsy). -/
def jsOrStr (o : Option String) (d : String) : String :=
  match o with
  | none => d
  | some s => if s = ("") then d else s

/-- Default-or-value on an optional pair of strings for the chained
logical-or context fallback of analyzeScreen. -/
def jsOrStr2 (o : Option String) (o2 : Option String) (d : String) : String :=
  jsOrStr o (jsOrStr o2 d)

/-- analyzeScreen in useVisualAnalysis, as a function of the call outcome.
If the generateText call throws, a fixed fallback analysis with urgency low
is appended; if it returns text that fails to parse as JSON, a fixed
placeholder payload with urgency low is substituted; otherwise each missing
or falsy field of the parsed payload receives its default.  The produced
analysis is appended to the bounded history and returned. -/
def analyzeScreen (analyses : List VisualAnalysis)
    (outcome : AICallOutcome ParsedAnalysis) (screenshot : String)
    (ctx : Option String) (now : Nat) (rawText : String) :
    List VisualAnalysis × VisualAnalysis :=
  match outcome with
  | .failed =>
      let fallbackAnalysis : VisualAnalysis :=
        { id := ("analysis_") ++ toString now
          timestamp := now
          screenshot := screenshot
          analysis :=
            { content := "Screen capture received"
              elements := [("Screen content")]
              context := jsOrStr ctx ("Screen activity")
              suggestions := [("Analysis temporarily unavailable")]
              urgency := ("low") }
          feedback := [{ type := ("insight")
                         message := ("Visual analysis is processing...")
                         actionable := false }] }
      (pushAnalysis analyses fallbackAnalysis, fallbackAnalysis)
  | .returned parsed =>
      let analysisData : ParsedAnalysis :=
        match parsed with
        | some d => d
        | none =>
            { content := some ("Screen analysis completed")
              elements := some [("Various UI elements detected")]
              context := some (jsOrStr ctx ("General screen activity"))
              suggestions := some [("Continue current activity")]
              urgency := some ("low")
              feedback := some [{ type := ("insight")
                                  message := rawText.take 200 ++ ("...")
                                  actionable := false }] }
      let analysis : VisualAnalysis :=
        { id := ("analysis_") ++ toString now
          timestamp := now
          screenshot := screenshot
          analysis :=
            { content := jsOrStr analysisData.content ("Screen content analyzed")
              elements := analysisData.elements.getD []
              context := jsOrStr2 analysisData.context ctx ("Unknown context")
              suggestions := analysisData.suggestions.getD []
              urgency := jsOrStr analysisData.urgency ("low") }
          feedback := analysisData.feedback.getD [] }
      (pushAnalysis analyses analysis, analysis)

/-- getLatestAnalysis in useVisualAnalysis: the last element of the history,
or none when the history is empty. -/
def getLatestAnalysis (analyses : List VisualAnalysis) : Option VisualAnalysis :=
  analyses.getLast?

/-- Fields of the JSON object the feedback prompt asks for, each optional. -/
structure ParsedFeedback where
  type : Option String
  priority : Option FeedbackPriority
  title : Option String
  message : Option String
  actionable : Option Bool
  suggestions : Option (List String)
deriving DecidableEq, Repr

/-- generateContextualFeedback in useSmartFeedback.ts as a function of the
call outcome.  A failed call returns null and changes nothing; a response
that fails to parse as JSON returns null and changes nothing (silent skip, no
fallback event); a parsed response builds a SmartFeedback with per-field
defaults and pushes it, installing it as active when high or urgent. -/
def generateContextualFeedback (s : FeedbackState)
    (outcome : AICallOutcome ParsedFeedback)
    (visualContext sessionType : String) (duration now : Nat) (rawText : String) :
    FeedbackState × Option SmartFeedback :=
  match outcome with
  | .failed => (s, none)
  | .returned none => (s, none)
  | .returned (some d) =>
      let feedback : SmartFeedback :=
        { id := ("feedback_") ++ toString now
          timestamp := now
          type := jsOrStr d.type ("insight")
          priority := d.priority.getD .medium
          title := jsOrStr d.title ("AI Insight")
          message := jsOrStr d.message (rawText.take 200)
          actionable := d.actionable.getD false
          context := { sessionType := sessionType, duration := duration
                       activity := visualContext }
          suggestions := d.suggestions.getD []
          dismissed := false }
      (pushFeedback s feedback, some feedback)

/-- Concrete capture used to exercise the buffer bound. -/
def mkCapture (i : Nat) : ScreenCaptureData :=
  { screenshot := (""), timestamp := i, windowTitle := none, activeApplication := none }

/-- Concrete analysis used to exercise the history bound. -/
def mkAnalysis (i : Nat) : VisualAnalysis :=
  { id := (""), timestamp := i, screenshot := ("")
    analysis := { content := (""), elements := [], context := ("")
                  suggestions := [], urgency := ("low") }
    feedback := [] }

/-! ## Recent suggestions (useAICoaching, getRecentSuggestions) -/

/-- Comparator of getRecentSuggestions: the JS comparator returns
b.timestamp - a.timestamp, ordering larger timestamps first. -/
def newerFirst (a b : AISuggestion) : Bool :=
  decide (b.timestamp ≤ a.timestamp)

/-- getRecentSuggestions in useAICoaching: the stored suggestions array is
sorted in place by descending timestamp (the JS sort mutates the array, so
the stored list is permanently reordered) and the first limit elements of the
sorted array are returned.  The first component is the returned list, the
second the stored list after the call. -/
def getRecentSuggestions (suggestions : List AISuggestion) (limit : Nat) :
    List AISuggestion × List AISuggestion :=
  let sorted := suggestions.mergeSort newerFirst
  (sorted.take limit, sorted)

/-! ## Session statistics (useSessionManager, getSessionStats) -/

/-- One sessionAnalytics row, the two counters getSessionStats reads. -/
structure AnalyticsRecord where
  suggestionsUsed : Nat
  totalSuggestions : Nat
deriving DecidableEq, Repr

/-- One sessions row, the single field getSessionStats reads. -/
structure SessionRow where
  duration : Option Nat
deriving DecidableEq, Repr

/-- Rounding of a nonnegative JS number: round half up, as an integer. -/
def jsRound (q : ℚ) : ℤ := ⌊q + 1 / 2⌋

/-- Sum of totalSuggestions over the analytics rows, the first reducer of
getSessionStats (a missing counter reads as 0). -/
def sumTotal (analytics : List AnalyticsRecord) : Nat :=
  (analytics.map (fun a => a.totalSuggestions)).sum

/-- Sum of suggestionsUsed over the analytics rows. -/
def sumUsed (analytics : List AnalyticsRecord) : Nat :=
  (analytics.map (fun a => a.suggestionsUsed)).sum

/-- Denominator reducer of successRate: each row contributes its
totalSuggestions, with a zero (falsy) counter replaced by 1 by the
logical-or default. -/
def sumDenom (analytics : List AnalyticsRecord) : Nat :=
  (analytics.map (fun a =>
    if a.totalSuggestions = 0 then 1 else a.totalSuggestions)).sum

/-- The avgSuggestions aggregate of getSessionStats before rounding: the sum
of totalSuggestions divided by the number of rows, and 0 when no rows
exist. -/
def avgSuggestionsRaw (analytics : List AnalyticsRecord) : ℚ :=
  if 0 < analytics.length then
    (sumTotal analytics : ℚ) / (analytics.length : ℚ)
  else 0

/-- The successRate aggregate of getSessionStats before rounding: the sum of
suggestionsUsed divided by the defaulted sum of totalSuggestions, times 100,
and 0 when no rows exist. -/
def successRateRaw (analytics : List AnalyticsRecord) : ℚ :=
  if 0 < analytics.length then
    ((sumUsed analytics : ℚ) / (sumDenom analytics : ℚ)) * 100
  else 0

/-- getSessionStats in useSessionManager: totalSessions, totalDuration with
missing durations counted as 0, avgSuggestions rounded to one decimal and
successRate rounded to an integer. -/
def getSessionStats (sessions : List SessionRow) (analytics : List AnalyticsRecord) :
    Nat × Nat × ℚ × ℤ :=
  (sessions.length,
   (sessions.map (fun s => s.duration.getD 0)).sum,
   (jsRound (avgSuggestionsRaw analytics * 10) : ℚ) / 10,
   jsRound (successRateRaw analytics))

/-! ## Theorems: the frozen claims settled against the embedding -/

lemma assembleTranscript_eq_foldl (chunks : List String) (ord : List Nat) :
    assembleTranscript chunks ord
      = submissionConcat (ord.map (fun i => chunks.getD i (""))) := by
  unfold assembleTranscript submissionConcat
  rw [List.foldl_map]

lemma map_getD_range (l : List String) :
    (List.range l.length).map (fun i => l.getD i ("")) = l := by
  apply List.ext_getElem
  · simp
  · intro n h1 h2
    simp only [List.getElem_map, List.getElem_range]
    exact List.getD_eq_getElem l ("") h2

/-- C4: the claim asserts that a transcript growing from 0 to 150 words in
10-word increments triggers suggestion generation exactly three times, at the
50, 100 and 150 word crossings.  On the code the trigger never fires on this
scenario: every appended result is prefixed with a space, so the split of the
transcript on single spaces starts with an empty fragment and has length
10k + 1 after k chunks, which is never divisible by 50.  This contradicts the
comment on the effect, which says it fires every 50 words. -/
theorem C4_trigger_never_fires :
    countTriggers (List.replicate 15 tenWordChunk) = 0 := by decide

/-- C1 counterexample: the claim asserts that for chunks submitted with
sequence numbers 1..n whose results resolve in any permutation, the assembled
transcript equals the concatenation in submission order.  With two chunks
whose results resolve in reverse order the code assembles them in resolution
order, which differs from the submission-order concatenation, so the claim is
false: the code has no sequence numbers and no reorder buffer. -/
theorem C1_counterexample :
    (List.Perm [1, 0] (List.range 2)) ∧
    assembleTranscript [("a"), ("b")] [1, 0] ≠ submissionConcat [("a"), ("b")] := by
  constructor
  · decide
  · decide

/-- C1 amended: the transcript is assembled in resolution order, not
submission order.  For every chunk list and resolution order, the assembled
transcript equals the space-prefixed concatenation of the results in the
order they resolve; it equals the submission-order concatenation when the
results resolve in exactly submission order. -/
theorem C1_amended (chunks : List String) (resolutionOrder : List Nat) :
    assembleTranscript chunks resolutionOrder
        = submissionConcat (resolutionOrder.map (fun i => chunks.getD i (""))) ∧
    assembleTranscript chunks (List.range chunks.length) = submissionConcat chunks := by
  refine ⟨assembleTranscript_eq_foldl chunks resolutionOrder, ?_⟩
  rw [assembleTranscript_eq_foldl, map_getD_range]

/-- C5: the engine maintains a single active slot.  A new event of priority
high or urgent replaces the current active event; an event of lower priority
is appended to history only and leaves the slot unchanged; dismissing an
event marks it dismissed in the list and clears the slot exactly when the
dismissed event was the active one. -/
theorem C5_active_slot (s : FeedbackState) (f : SmartFeedback) (fid : String) :
    ((f.priority = .high ∨ f.priority = .urgent) →
      (pushFeedback s f).activeFeedback = some f ∧
      (pushFeedback s f).feedbacks = sliceLast 50 s.feedbacks ++ [f]) ∧
    ((f.priority = .low ∨ f.priority = .medium) →
      (pushFeedback s f).activeFeedback = s.activeFeedback ∧
      (pushFeedback s f).feedbacks = sliceLast 50 s.feedbacks ++ [f]) ∧
    (∀ g ∈ (dismissFeedback s fid).feedbacks, g.id = fid → g.dismissed = true) ∧
    (∀ a, s.activeFeedback = some a → a.id = fid →
      (dismissFeedback s fid).activeFeedback = none) ∧
    (∀ a, s.activeFeedback = some a → a.id ≠ fid →
      (dismissFeedback s fid).activeFeedback = some a) := by
  refine ⟨?_, ?_, ?_, ?_, ?_⟩
  · intro h
    simp [pushFeedback, h]
  · intro h
    have hne : ¬ (f.priority = .high ∨ f.priority = .urgent) := by
      rcases h with h | h <;> simp [h]
    simp [pushFeedback, hne]
  · intro g hg hid
    simp only [dismissFeedback, List.mem_map] at hg
    obtain ⟨f0, _, rfl⟩ := hg
    by_cases h0 : f0.id = fid
    · simp [h0]
    · rw [if_neg h0] at hid
      exact absurd hid h0
  · intro a ha hid
    simp [dismissFeedback, ha, hid]
  · intro a ha hid
    simp [dismissFeedback, ha, hid]

/-- Witness for C5 at concrete inputs: a high-priority event takes the slot,
a low-priority event leaves it empty, and dismissing the active event clears
the slot. -/
theorem C5_active_slot_witness :
    (pushFeedback ⟨[], none⟩ fHigh).activeFeedback = some fHigh ∧
    (pushFeedback ⟨[], none⟩ fLow).activeFeedback = none ∧
    (dismissFeedback ⟨[fHigh], some fHigh⟩ ("fb_high")).activeFeedback = none := by
  refine ⟨((C5_active_slot ⟨[], none⟩ fHigh ("x")).1 (Or.inl rfl)).1, ?_, ?_⟩
  · exact ((C5_active_slot ⟨[], none⟩ fLow ("x")).2.1 (Or.inl rfl)).1
  · exact (C5_active_slot ⟨[fHigh], some fHigh⟩ fHigh ("fb_high")).2.2.2.1 fHigh rfl rfl

/-- C6 counterexample: the claim asserts that a low-priority event created at
time t is marked dismissed at some time within the half-open window from
t + 30000 to t + 35000.  With the sweep interval phase aligned to the
creation time, the only sweep tick inside that window is at exactly
t + 30000, and there the strict age test (age greater than 30000) fails, so
the event is still undismissed; it is dismissed only at the next tick,
t + 35000, which lies outside the claimed window. -/
theorem C6_counterexample :
    (sweepTick ⟨[fLow], none⟩ 30000).feedbacks = [fLow] ∧
    (sweepTick ⟨[fLow], none⟩ 35000).feedbacks = [{ fLow with dismissed := true }] := by
  constructor
  · decide
  · decide

/-- C6 amended: a sweep tick at time now marks a fresh low-priority event
dismissed exactly when now is strictly greater than creation time plus
30000 ms; consequently, with sweep ticks 5000 ms apart, the tick that
dismisses the event lies in the half-open window from t + 30000 exclusive to
t + 35000 inclusive, regardless of user action. -/
theorem C6_sweep_window (s : FeedbackState) (f : SmartFeedback) (now u : Nat)
    (hlow : f.priority = .low) (hfresh : f.dismissed = false) :
    ((sweepTick s now).feedbacks = s.feedbacks.map (sweepOne now)) ∧
    ((sweepOne now f).dismissed = true ↔ f.timestamp + 30000 < now) ∧
    (u ≤ f.timestamp + 30000 → f.timestamp + 30000 < u + 5000 →
      (sweepOne u f).dismissed = false ∧
      (sweepOne (u + 5000) f).dismissed = true ∧
      f.timestamp + 30000 < u + 5000 ∧ u + 5000 ≤ f.timestamp + 35000) := by
  have hiff : ∀ v : Nat, (sweepOne v f).dismissed = true ↔ f.timestamp + 30000 < v := by
    intro v
    unfold sweepOne
    by_cases hv : f.timestamp + 30000 < v
    · have : v - f.timestamp > 30000 := by omega
      simp [hlow, this, hv]
    · have : ¬ v - f.timestamp > 30000 := by omega
      simp [hlow, this, hfresh]
      omega
  refine ⟨rfl, hiff now, ?_⟩
  intro h1 h2
  refine ⟨?_, (hiff (u + 5000)).mpr h2, h2, by omega⟩
  have := (hiff u).not
  rcases h : (sweepOne u f).dismissed
  · rfl
  · exact absurd ((hiff u).mp h) (by omega)

/-- Witness for C6 amended at concrete inputs: the tick at 30000 leaves the
event created at 0 untouched and the tick at 35000 dismisses it. -/
theorem C6_sweep_window_witness :
    (sweepOne 30000 fLow).dismissed = false ∧
    (sweepOne 35000 fLow).dismissed = true ∧
    (30000 : Nat) ≤ fLow.timestamp + 30000 ∧ fLow.timestamp + 30000 < 35000 := by
  have h := (C6_sweep_window ⟨[fLow], none⟩ fLow 0 30000 rfl rfl).2.2
    (by decide) (by decide)
  exact ⟨h.1, h.2.1, by decide, by decide⟩

/-- C2 counterexample: the claim asserts at most one suggestion request and
at most one visual-analysis request in flight, with new triggers dropped
while one is pending.  Two word-count triggers before the first call
completes leave two suggestion requests pending, and two interval ticks at
10000 and 20000 while the first analysis is still running (lastAnalysisTime
still 0) leave two analysis requests pending: no single-flight guard exists
on either path. -/
theorem C2_counterexample :
    (generateSuggestionStart
        (generateSuggestionStart ⟨[], false, 0⟩ ("hello there")) ("hello there more")
      ).pendingRequests = 2 ∧
    (analysisTickStart (analysisTickStart ⟨0, 0⟩ 10000 true) 20000 true
      ).pendingRequests = 2 := by
  constructor
  · decide
  · decide

/-- C2 amended: neither scheduler enforces single-flight.  A suggestion
trigger with nonempty trimmed context always issues one more generateText
request regardless of how many are pending, and an analysis tick with a
capture available and more than 8000 ms since the last completed analysis
always issues one more analyzeScreen request regardless of how many are
pending; triggers are neither dropped nor queued. -/
theorem C2_no_single_flight (s : CoachingState) (context : String)
    (a : AnalysisSchedState) (now : Nat)
    (hctx : jsTrim context ≠ ("")) (hgap : 8000 < now - a.lastAnalysisTime) :
    (generateSuggestionStart s context).pendingRequests = s.pendingRequests + 1 ∧
    (analysisTickStart a now true).pendingRequests = a.pendingRequests + 1 := by
  constructor
  · simp [generateSuggestionStart, hctx]
  · simp [analysisTickStart, hgap]

/-- Witness for C2 amended at concrete inputs: a trigger arriving while five
requests are pending issues a sixth. -/
theorem C2_no_single_flight_witness :
    (generateSuggestionStart ⟨[], true, 5⟩ ("hello")).pendingRequests = 6 ∧
    (analysisTickStart ⟨0, 5⟩ 10000 true).pendingRequests = 6 := by
  have h := C2_no_single_flight ⟨[], true, 5⟩ ("hello") ⟨0, 5⟩ 10000
    (by decide) (by decide)
  exact h

/-- C3 counterexample: the claim asserts that on a stop at startTime + 125000
the record gets duration 125000 and status completed AND that a transcript
change still inside the 2-second debounce window is flushed to the store
before completion.  On the concrete run the duration and status parts hold,
but the pending write of the final transcript is cancelled by the effect
cleanup: the persisted history still holds only the earlier snapshot and the
final transcript is nowhere in it. -/
theorem C3_counterexample :
    c3Run.1.duration = some 125000 ∧
    c3Run.1.status = .completed ∧
    c3Run.2.persisted = [("hello")] ∧
    ("hello world") ∉ c3Run.2.persisted := by
  refine ⟨rfl, rfl, rfl, ?_⟩
  decide

/-- C3 amended: stopping at startTime + 125000 persists duration 125000 and
status completed, but a debounced transcript write still pending at stop time
is cancelled, not flushed: the stop leaves the persisted history unchanged
and empties the timer slot, so the pending content reaches the store only if
its timer had already fired before the stop. -/
theorem C3_stop_cancels_pending (sess : SessionRec) (s : DebounceState)
    (now due : Nat) (txt : String)
    (hstart : sess.startTime + 125000 = now)
    (_hpend : s.pending = some (due, txt)) (_hdue : now < due) :
    (stopSession sess s now).1.duration = some 125000 ∧
    (stopSession sess s now).1.status = .completed ∧
    (stopSession sess s now).2.pending = none ∧
    (stopSession sess s now).2.persisted = s.persisted := by
  refine ⟨?_, rfl, rfl, rfl⟩
  simp only [stopSession, endSession]
  congr 1
  omega

/-- Witness for C3 amended at the concrete scenario state. -/
theorem C3_stop_cancels_pending_witness :
    (stopSession ⟨0, none, none, .active⟩ ⟨some (126000, ("hello world")), [("hello")]⟩
        125000).1.duration = some 125000 ∧
    (stopSession ⟨0, none, none, .active⟩ ⟨some (126000, ("hello world")), [("hello")]⟩
        125000).2.persisted = [("hello")] := by
  have h := C3_stop_cancels_pending ⟨0, none, none, .active⟩
    ⟨some (126000, ("hello world")), [("hello")]⟩ 125000 126000 ("hello world")
    (by decide) rfl (by decide)
  exact ⟨h.1, h.2.2.2⟩

/-- C7: if every vision call fails, the history still receives a placeholder
analysis with urgency low on the first tick, so getLatestAnalysis is
non-null; and a feedback-inference result that fails to parse makes the
feedback engine emit nothing for that tick and leave its state unchanged (as
does a failed feedback call). -/
theorem C7_failure_degradation (analyses : List VisualAnalysis)
    (screenshot : String) (ctx : Option String) (now : Nat) (raw : String)
    (s : FeedbackState) (vc st : String) (dur fnow : Nat) (fraw : String) :
    (∃ a, getLatestAnalysis (analyzeScreen analyses .failed screenshot ctx now raw).1
            = some a ∧
          a.analysis.urgency = ("low") ∧ a.timestamp = now) ∧
    generateContextualFeedback s (.returned none) vc st dur fnow fraw = (s, none) ∧
    generateContextualFeedback s .failed vc st dur fnow fraw = (s, none) := by
  refine ⟨⟨(analyzeScreen analyses .failed screenshot ctx now raw).2, ?_, rfl, rfl⟩, rfl, rfl⟩
  simp only [analyzeScreen, getLatestAnalysis, pushAnalysis]
  exact List.getLast?_concat _

/-- C9 counterexample: the claim asserts the capture buffer never holds more
than 10 frames and the analysis history never more than 20 analyses.  The
update keeps the last 10 (resp. 20) existing elements and then appends, so 11
pushed frames leave 11 in the buffer and 21 pushed analyses leave 21 in the
history. -/
theorem C9_counterexample :
    (((List.range 11).map mkCapture).foldl pushCapture []).length = 11 ∧
    (((List.range 21).map mkAnalysis).foldl pushAnalysis []).length = 21 := by
  constructor
  · decide
  · decide

lemma length_sliceLast (n : Nat) (l : List α) :
    (sliceLast n l).length = min l.length n := by
  simp only [sliceLast, List.length_drop]
  omega

lemma foldl_pushCapture_le (items : List ScreenCaptureData) :
    ∀ init : List ScreenCaptureData, init.length ≤ 11 →
      (items.foldl pushCapture init).length ≤ 11 := by
  induction items with
  | nil => intro init h; simpa using h
  | cons x xs ih =>
      intro init h
      apply ih
      simp only [pushCapture, List.length_append, length_sliceLast, List.length_cons,
        List.length_nil]
      omega

lemma foldl_pushAnalysis_le (items : List VisualAnalysis) :
    ∀ init : List VisualAnalysis, init.length ≤ 21 →
      (items.foldl pushAnalysis init).length ≤ 21 := by
  induction items with
  | nil => intro init h; simpa using h
  | cons x xs ih =>
      intro init h
      apply ih
      simp only [pushAnalysis, List.length_append, length_sliceLast, List.length_cons,
        List.length_nil]
      omega

/-- C9 amended: the buffers are bounded by 11 frames and 21 analyses, not 10
and 20: each append first keeps only the newest 10 (resp. 20) existing
elements, a suffix of the old buffer, so the oldest elements are evicted, and
then adds the new element; from an empty buffer every push sequence stays
within 11 (resp. 21) elements. -/
theorem C9_buffer_bounds (l : List ScreenCaptureData) (x : ScreenCaptureData)
    (la : List VisualAnalysis) (a : VisualAnalysis)
    (caps : List ScreenCaptureData) (ans : List VisualAnalysis) :
    (pushCapture l x).length = min l.length 10 + 1 ∧
    (pushAnalysis la a).length = min la.length 20 + 1 ∧
    (sliceLast 10 l <:+ l) ∧ (sliceLast 20 la <:+ la) ∧
    (caps.foldl pushCapture []).length ≤ 11 ∧
    (ans.foldl pushAnalysis []).length ≤ 21 := by
  refine ⟨?_, ?_, List.drop_suffix _ _, List.drop_suffix _ _, ?_, ?_⟩
  · simp only [pushCapture, List.length_append, length_sliceLast, List.length_cons,
      List.length_nil]
  · simp only [pushAnalysis, List.length_append, length_sliceLast, List.length_cons,
      List.length_nil]
  · exact foldl_pushCapture_le caps [] (by simp)
  · exact foldl_pushAnalysis_le ans [] (by simp)

/-- C10: getRecentSuggestions returns the limit newest suggestions in
non-increasing timestamp order, and as a side effect the stored list becomes
exactly that descending-timestamp reordering of its previous content (a
permutation, so no suggestion is lost or duplicated); every returned element
is at least as new as every element left beyond the limit, and nothing else
about the state changes: the call is determined by the suggestions list
alone. -/
theorem C10_recent_suggestions (l : List AISuggestion) (limit : Nat) :
    (getRecentSuggestions l limit).1 = (getRecentSuggestions l limit).2.take limit ∧
    ((getRecentSuggestions l limit).2.Perm l) ∧
    List.Pairwise (fun a b => b.timestamp ≤ a.timestamp) (getRecentSuggestions l limit).2 ∧
    List.Pairwise (fun a b => b.timestamp ≤ a.timestamp) (getRecentSuggestions l limit).1 ∧
    (getRecentSuggestions l limit).1.length = min limit l.length ∧
    (∀ x ∈ (getRecentSuggestions l limit).1,
      ∀ y ∈ (getRecentSuggestions l limit).2.drop limit, y.timestamp ≤ x.timestamp) := by
  have htrans : ∀ a b c : AISuggestion,
      newerFirst a b = true → newerFirst b c = true → newerFirst a c = true := by
    intro a b c
    simp only [newerFirst, decide_eq_true_eq]
    omega
  have htotal : ∀ a b : AISuggestion, (newerFirst a b || newerFirst b a) = true := by
    intro a b
    simp only [newerFirst, Bool.or_eq_true, decide_eq_true_eq]
    omega
  have hsortedB := List.sorted_mergeSort htrans htotal l
  have hsorted : List.Pairwise (fun a b : AISuggestion => b.timestamp ≤ a.timestamp)
      (l.mergeSort newerFirst) := by
    refine hsortedB.imp ?_
    intro a b h
    simpa [newerFirst] using h
  have hperm := List.mergeSort_perm l newerFirst
  have hsplit := List.take_append_drop limit (l.mergeSort newerFirst)
  have hcross : ∀ x ∈ (l.mergeSort newerFirst).take limit,
      ∀ y ∈ (l.mergeSort newerFirst).drop limit, y.timestamp ≤ x.timestamp := by
    have h2 := hsorted
    rw [← hsplit] at h2
    exact (List.pairwise_append.mp h2).2.2
  refine ⟨rfl, hperm, hsorted, ?_, ?_, hcross⟩
  · exact hsorted.sublist (List.take_sublist limit _)
  · simp only [getRecentSuggestions, List.length_take]
    rw [hperm.length_eq]

lemma avgSuggestionsRaw_nonneg (analytics : List AnalyticsRecord) :
    0 ≤ avgSuggestionsRaw analytics := by
  unfold avgSuggestionsRaw
  split
  · positivity
  · exact le_refl 0

lemma sumDenom_pos (analytics : List AnalyticsRecord)
    (h : 0 < analytics.length) : 0 < sumDenom analytics := by
  have hge : analytics.length ≤ sumDenom analytics := by
    unfold sumDenom
    induction analytics with
    | nil => simp
    | cons x xs ih =>
        simp only [List.map_cons, List.sum_cons, List.length_cons]
        have hx : 1 ≤ if x.totalSuggestions = 0 then 1 else x.totalSuggestions := by
          split
          · exact le_refl 1
          · omega
        omega
  omega

lemma successRateRaw_nonneg (analytics : List AnalyticsRecord) :
    0 ≤ successRateRaw analytics := by
  unfold successRateRaw
  split
  · positivity
  · exact le_refl 0

lemma jsRound_nonneg (q : ℚ) (h : 0 ≤ q) : 0 ≤ jsRound q := by
  unfold jsRound
  positivity

lemma jsRound_zero : jsRound 0 = 0 := by
  unfold jsRound
  rw [zero_add]
  refine Int.floor_eq_zero_iff.mpr ?_
  constructor
  · norm_num
  · norm_num

/-- C8: avgSuggestions and successRate as computed by getSessionStats are
nonnegative (and finite: in the nonempty branch the successRate denominator
is strictly positive, so no division by zero occurs, and with no analytics
rows both if-branches yield 0 directly rather than NaN); with no analytics
rows both aggregates are 0, and with rows whose counters are all zero both
aggregates are 0 as well. -/
theorem C8_stats_safe (sessions : List SessionRow) (analytics : List AnalyticsRecord) :
    0 ≤ avgSuggestionsRaw analytics ∧
    0 ≤ successRateRaw analytics ∧
    0 ≤ (getSessionStats sessions analytics).2.2.1 ∧
    0 ≤ (getSessionStats sessions analytics).2.2.2 ∧
    (0 < analytics.length → 0 < sumDenom analytics) ∧
    (analytics = [] →
      (getSessionStats sessions analytics).2.2.1 = 0 ∧
      (getSessionStats sessions analytics).2.2.2 = 0) ∧
    ((∀ a ∈ analytics, a.totalSuggestions = 0 ∧ a.suggestionsUsed = 0) →
      (getSessionStats sessions analytics).2.2.1 = 0 ∧
      (getSessionStats sessions analytics).2.2.2 = 0) := by
  have havg := avgSuggestionsRaw_nonneg analytics
  have hrate := successRateRaw_nonneg analytics
  refine ⟨havg, hrate, ?_, ?_, sumDenom_pos analytics, ?_, ?_⟩
  · simp only [getSessionStats]
    apply div_nonneg _ (by norm_num : (0:ℚ) ≤ 10)
    exact_mod_cast jsRound_nonneg _ (by positivity)
  · simp only [getSessionStats]
    exact jsRound_nonneg _ hrate
  · intro h
    subst h
    simp only [getSessionStats, avgSuggestionsRaw, successRateRaw, List.length_nil,
      lt_irrefl, if_false, zero_mul, jsRound_zero]
    norm_num
  · intro h
    have h1 : avgSuggestionsRaw analytics = 0 := by
      unfold avgSuggestionsRaw
      split
      · have hz : sumTotal analytics = 0 := by
          unfold sumTotal
          rw [List.sum_eq_zero]
          intro x hx
          obtain ⟨a, ha, rfl⟩ := List.mem_map.mp hx
          exact (h a ha).1
        rw [hz]
        norm_num
      · rfl
    have h2 : successRateRaw analytics = 0 := by
      unfold successRateRaw
      split
      · have hz : sumUsed analytics = 0 := by
          unfold sumUsed
          rw [List.sum_eq_zero]
          intro x hx
          obtain ⟨a, ha, rfl⟩ := List.mem_map.mp hx
          exact (h a ha).2
        rw [hz]
        norm_num
      · rfl
    constructor
    · simp only [getSessionStats]
      rw [h1, zero_mul, jsRound_zero]
      norm_num
    · simp only [getSessionStats]
      rw [h2, jsRound_zero]

/-- Witness for C8 at concrete inputs: with no analytics rows and with a
single all-zero row, both aggregates are 0, and the denominator is positive
for a nonempty row list. -/
theorem C8_stats_safe_witness :
    (getSessionStats [] []).2.2.1 = 0 ∧
    (getSessionStats [] []).2.2.2 = 0 ∧
    (getSessionStats [⟨some 1000⟩] [⟨0, 0⟩]).2.2.1 = 0 ∧
    (getSessionStats [⟨some 1000⟩] [⟨0, 0⟩]).2.2.2 = 0 ∧
    0 < sumDenom [⟨0, 0⟩] := by
  have h1 := (C8_stats_safe [] []).2.2.2.2.2.1 rfl
  have h2 := (C8_stats_safe [⟨some 1000⟩] [⟨0, 0⟩]).2.2.2.2.2.2
    (by intro a ha; simp only [List.mem_singleton] at ha; rw [ha]; exact ⟨rfl, rfl⟩)
  have h3 := (C8_stats_safe [⟨some 1000⟩] [⟨0, 0⟩]).2.2.2.2.1 (by decide)
  exact ⟨h1.1, h1.2, h2.1, h2.2, h3⟩

end KinglyOverlay

